import Mathlib

/-!
Verification of the workflow YAML validator of
`awslabs/github_actions_mcp_server` (`helpers.py`, `validate_workflow`,
lines 360-447), embedded shallowly in Lean 4.

The validator receives raw text, parses it with `yaml.safe_load`, and runs
a fixed sequence of structural checks over the resulting dynamic value.
We model the dynamic (Python) value universe as the inductive type `Yaml`,
the exceptions the traversal can raise as `PyErr`, and the outcome of the
parse stage as `ParseResult` (the YAML parser itself is external to the
repository, so the embedding starts from its result).  Every dynamic
operation the source performs (`not x`, `k in x`, `for k in x`, `x.get`,
`x[k]`, `.items()`, `.startswith`) is given its Python semantics as an
`Except PyErr` computation, and the function body is transcribed
match-for-match.
-/

/-- Dynamic YAML/Python values produced by `yaml.safe_load`: null, booleans,
integers, strings, sequences and mappings.  Mappings model Python dicts in
insertion order; keys are unique.  (Other scalar kinds such as floats play
no role in any checked property.) -/
inductive Yaml where
  | null
  | bool (b : Bool)
  | int (n : Int)
  | str (s : String)
  | seq (xs : List Yaml)
  | map (kvs : List (Yaml × Yaml))
deriving Repr

/-- Exceptions the traversal in the `try` block can raise. -/
inductive PyErr where
  | typeError
  | attributeError
  | keyError
deriving Repr, DecidableEq

/-- Outcome of `yaml.safe_load(content)` (line 371): either a value (a blank
document yields Python `None`, i.e. `Yaml.null`) or a `yaml.YAMLError`
carrying its message text. -/
inductive ParseResult where
  | ok (v : Yaml)
  | yamlError (msg : String)

/-- The returned validation report: the dict built at lines 374-378 with
keys `valid`, `warnings`, `suggestions`. -/
structure Report where
  valid : Bool
  warnings : List String
  suggestions : List String
deriving Repr, DecidableEq

/-- Python truthiness (`if not yaml_content`, `if not job`,
`if yaml_content.get('jobs')`). -/
def pyTruthy : Yaml → Bool
  | .null => false
  | .bool b => b
  | .int n => !(n == 0)
  | .str s => !s.isEmpty
  | .seq xs => !xs.isEmpty
  | .map kvs => !kvs.isEmpty

/-- Python `==` comparison of a dynamic value against a string literal.
Only an equal `str` compares equal to a string (numbers, booleans, `None`,
lists and dicts are never `==` to a `str`).  All equality tests in the
source compare against string literals, so this is the only case needed. -/
def pyEqStr : Yaml → String → Bool
  | .str t, s => t == s
  | _, _ => false

/-- Python `key is True` (identity test against the `True` singleton,
line 392). -/
def isTrueKey : Yaml → Bool
  | .bool true => true
  | _ => false

/-- Occurrence of `pat` as a contiguous run inside a character list. -/
def listHasInfix (pat : List Char) : List Char → Bool
  | [] => pat.isEmpty
  | c :: rest => pat.isPrefixOf (c :: rest) || listHasInfix pat rest

/-- Substring test on strings, for Python `needle in s` when `s` is a
`str`. -/
def strContains (s pat : String) : Bool :=
  listHasInfix pat.toList s.toList

/-- String prefix test, for Python `s.startswith(pre)` (line 423). -/
def strStartsWith (s pre : String) : Bool :=
  pre.toList.isPrefixOf s.toList

/-- Python `needle in container` for a string needle (lines 386, 400, 411,
414): key membership for a dict, substring for a str, element membership
for a list; `TypeError` for `None`, booleans and integers. -/
def pyContains (container : Yaml) (needle : String) : Except PyErr Bool :=
  match container with
  | .map kvs => .ok (kvs.any (fun kv => pyEqStr kv.1 needle))
  | .str s => .ok (strContains s needle)
  | .seq xs => .ok (xs.any (fun x => pyEqStr x needle))
  | _ => .error .typeError

/-- Python iteration `for x in container` (lines 391, 422): keys of a dict
in insertion order, one-character strings of a str, elements of a list;
`TypeError` otherwise. -/
def pyIter : Yaml → Except PyErr (List Yaml)
  | .map kvs => .ok (kvs.map Prod.fst)
  | .str s => .ok (s.toList.map (fun c => .str (String.singleton c)))
  | .seq xs => .ok xs
  | _ => .error .typeError

/-- Python `container.get(key, default)` (lines 406, 418, 422, 423): only
dicts have `.get`; any other receiver raises `AttributeError`.  Keys are
unique in a dict, so the first match is the match. -/
def pyGet (container : Yaml) (key : String) (dflt : Yaml) : Except PyErr Yaml :=
  match container with
  | .map kvs =>
    match kvs.find? (fun kv => pyEqStr kv.1 key) with
    | some kv => .ok kv.2
    | none => .ok dflt
  | _ => .error .attributeError

/-- Python subscript `container[key]` for a string key (line 421):
`KeyError` when absent, `TypeError` on a non-subscriptable value. -/
def pySubscript (container : Yaml) (key : String) : Except PyErr Yaml :=
  match container with
  | .map kvs =>
    match kvs.find? (fun kv => pyEqStr kv.1 key) with
    | some kv => .ok kv.2
    | none => .error .keyError
  | _ => .error .typeError

/-- Python `container.items()` (lines 406, 421): only dicts have
`.items`. -/
def pyItems : Yaml → Except PyErr (List (Yaml × Yaml))
  | .map kvs => .ok kvs
  | _ => .error .attributeError

/-- Python `str()` rendering of a mapping key, used by the f-strings at
lines 408, 412, 415.  Keys produced by `yaml.safe_load` are hashable
scalars, so the sequence and mapping cases are unreachable for
parser-produced documents. -/
def pyStr : Yaml → String
  | .null => "None"
  | .bool true => "True"
  | .bool false => "False"
  | .int n => toString n
  | .str s => s
  | .seq _ => "<sequence>"
  | .map _ => "<mapping>"

/-- Rendering of a raised exception for the `f'Validation error: {str(e)}'`
message (line 445).  The model abstracts the exact CPython message text and
keeps only the exception class; the specification constrains only the
`Validation error:` prefix. -/
def pyErrText : PyErr → String
  | .typeError => "TypeError"
  | .attributeError => "AttributeError"
  | .keyError => "KeyError"

/-- Lines 390-394: `has_on` is set when some top-level key `is True` or
`== 'on'`. -/
def keysHasOn (keys : List Yaml) : Bool :=
  keys.any (fun k => isTrueKey k || pyEqStr k "on")

/-- Lines 406-415: the per-job loop over `yaml_content.get('jobs', {}).items()`,
returning the warnings it appends in order.  An empty (falsy) job definition
gets `Empty job:` and skips the two key checks (`continue`); otherwise the
`runs-on` and `steps` checks are two independent `if` statements. -/
def jobWarnings : List (Yaml × Yaml) → Except PyErr (List String)
  | [] => .ok []
  | (jid, job) :: rest =>
    if pyTruthy job = false then
      match jobWarnings rest with
      | .ok ws => .ok (("Empty job: " ++ pyStr jid) :: ws)
      | .error e => .error e
    else
      match pyContains job "runs-on" with
      | .error e => .error e
      | .ok hasRunsOn =>
        match pyContains job "steps" with
        | .error e => .error e
        | .ok hasSteps =>
          match jobWarnings rest with
          | .ok ws =>
            .ok ((if hasRunsOn then [] else ["Missing runs-on in job: " ++ pyStr jid])
              ++ (if hasSteps then [] else ["Missing steps in job: " ++ pyStr jid]) ++ ws)
          | .error e => .error e

/-- Line 423: `step.get('uses', '').startswith('actions/checkout@')`. -/
def stepHasCheckout (step : Yaml) : Except PyErr Bool :=
  match pyGet step "uses" (.str "") with
  | .error e => .error e
  | .ok uses =>
    match uses with
    | .str s => .ok (strStartsWith s "actions/checkout@")
    | _ => .error .attributeError

/-- Lines 422-425: the inner loop over a steps sequence, stopping at the
first checkout step. -/
def scanSteps : List Yaml → Except PyErr Bool
  | [] => .ok false
  | step :: rest =>
    match stepHasCheckout step with
    | .error e => .error e
    | .ok true => .ok true
    | .ok false => scanSteps rest

/-- Lines 422-425 for a single job: `for step in job.get('steps', [])`. -/
def scanJob (job : Yaml) : Except PyErr Bool :=
  match pyGet job "steps" (.seq []) with
  | .error e => .error e
  | .ok stepsVal =>
    match pyIter stepsVal with
    | .error e => .error e
    | .ok steps => scanSteps steps

/-- Lines 421-427: the outer loop of the checkout scan over
`yaml_content['jobs'].items()`, stopping at the first job containing a
checkout step. -/
def scanJobs : List (Yaml × Yaml) → Except PyErr Bool
  | [] => .ok false
  | (_, job) :: rest =>
    match scanJob job with
    | .error e => .error e
    | .ok true => .ok true
    | .ok false => scanJobs rest

/-- The suggestion text appended at lines 430-432. -/
def checkoutSuggestion : String :=
  "Consider adding actions/checkout step to access repository files"

/-- The body of the `try` block (lines 374-434) applied to a successfully
parsed document, transcribed statement by statement.  An `.error` outcome
is an exception propagating out of the block (to be caught by the handler
at line 441). -/
def tryBody (y : Yaml) : Except PyErr Report :=
  if pyTruthy y = false then
    .ok { valid := false, warnings := ["Empty workflow file"], suggestions := [] }
  else
    match pyContains y "name" with
    | .error e => .error e
    | .ok hasName =>
      let w1 := if hasName then [] else ["Missing workflow name"]
      match pyIter y with
      | .error e => .error e
      | .ok keys =>
        let hasOn := keysHasOn keys
        let w2 := w1 ++ (if hasOn then [] else ["Missing trigger events (on:)"])
        match pyContains y "jobs" with
        | .error e => .error e
        | .ok hasJobs =>
          if hasJobs = false then
            .ok { valid := false, warnings := w2 ++ ["Missing jobs section"],
                  suggestions := [] }
          else
            match pyGet y "jobs" (.map []) with
            | .error e => .error e
            | .ok jobsVal =>
              match pyItems jobsVal with
              | .error e => .error e
              | .ok jobKvs =>
                match jobWarnings jobKvs with
                | .error e => .error e
                | .ok w3 =>
                  match pyGet y "jobs" .null with
                  | .error e => .error e
                  | .ok jobsVal2 =>
                    if pyTruthy jobsVal2 then
                      match pySubscript y "jobs" with
                      | .error e => .error e
                      | .ok jobsVal3 =>
                        match pyItems jobsVal3 with
                        | .error e => .error e
                        | .ok scanKvs =>
                          match scanJobs scanKvs with
                          | .error e => .error e
                          | .ok hasCheckout =>
                            .ok { valid := hasOn, warnings := w2 ++ w3,
                                  suggestions :=
                                    if hasCheckout then [] else [checkoutSuggestion] }
                    else
                      .ok { valid := hasOn, warnings := w2 ++ w3, suggestions := [] }

/-- The whole function including its two `except` clauses (lines 435-447),
with the exception status made explicit: a `yaml.YAMLError` from the parse
becomes the `Invalid YAML:` report, and any exception escaping the body is
caught by the generic handler and becomes the `Validation error:` report.
An `.error` result here would mean an exception reaching the caller. -/
def validate_workflow_exc (pr : ParseResult) : Except PyErr Report :=
  match pr with
  | .yamlError msg =>
    .ok { valid := false, warnings := ["Invalid YAML: " ++ msg], suggestions := [] }
  | .ok y =>
    match tryBody y with
    | .ok r => .ok r
    | .error e =>
      .ok { valid := false, warnings := ["Validation error: " ++ pyErrText e],
            suggestions := [] }

/-- The report `validate_workflow` returns. -/
def validate_workflow (pr : ParseResult) : Report :=
  match pr with
  | .yamlError msg =>
    { valid := false, warnings := ["Invalid YAML: " ++ msg], suggestions := [] }
  | .ok y =>
    match tryBody y with
    | .ok r => r
    | .error e =>
      { valid := false, warnings := ["Validation error: " ++ pyErrText e],
        suggestions := [] }

/-- Presence of a trigger-events key in a document, as the source computes
it when iteration succeeds (lines 390-394). -/
def hasOnDoc (y : Yaml) : Bool :=
  match pyIter y with
  | .ok keys => keysHasOn keys
  | .error _ => false

/-- Presence of a `jobs` key, as the source tests it at line 400. -/
def hasJobsDoc (y : Yaml) : Bool :=
  match pyContains y "jobs" with
  | .ok b => b
  | .error _ => false

/-- True when the `try` body raises, i.e. the generic handler at line 441
fires. -/
def bodyFails (y : Yaml) : Bool :=
  match tryBody y with
  | .ok _ => false
  | .error _ => true

/-! ### Helper lemmas -/

/-- When the `try` body returns normally, the `valid` flag of its report is
the conjunction of document truthiness, trigger-key presence and `jobs`-key
presence: these are the only checks that clear it. -/
theorem tryBody_ok_valid (y : Yaml) (r : Report) (h : tryBody y = Except.ok r) :
    r.valid = (pyTruthy y && (hasOnDoc y && hasJobsDoc y)) := by
  unfold tryBody at h
  repeat' split at h
  all_goals simp_all [hasOnDoc, hasJobsDoc]
  all_goals (cases h; simp_all [Bool.not_eq_false])

/-- The outer checkout scan returns `true` exactly when some scanned job
contains a checkout step, provided it terminates without raising. -/
theorem scanJobs_ok_iff (l : List (Yaml × Yaml)) (b : Bool)
    (h : scanJobs l = Except.ok b) :
    (b = true ↔ ∃ p, p ∈ l ∧ scanJob p.2 = Except.ok true) := by
  induction l generalizing b with
  | nil =>
    unfold scanJobs at h
    cases h
    simp
  | cons hd tl ih =>
    obtain ⟨jid, job⟩ := hd
    unfold scanJobs at h
    cases hs : scanJob job with
    | error e => rw [hs] at h; cases h
    | ok found =>
      rw [hs] at h
      cases found with
      | true =>
        cases h
        simp only [true_iff]
        exact ⟨(jid, job), List.mem_cons_self _ _, hs⟩
      | false =>
        have := ih b h
        rw [this]
        constructor
        · rintro ⟨p, hp, hsc⟩
          exact ⟨p, List.mem_cons_of_mem _ hp, hsc⟩
        · rintro ⟨p, hp, hsc⟩
          rcases List.mem_cons.mp hp with heq | hmem
          · subst heq; rw [hs] at hsc; cases hsc
          · exact ⟨p, hmem, hsc⟩

/-! ### Claim theorems -/

/-- C1: for every input (any parse outcome, any document shape), the
function converts every failure into a returned report: the exception-level
semantics always yields `Except.ok` of the report the function returns,
so no YAML parse error, empty document, or traversal exception reaches the
caller. -/
theorem C1_never_raises (pr : ParseResult) :
    validate_workflow_exc pr = Except.ok (validate_workflow pr) := by
  cases pr with
  | yamlError m => rfl
  | ok y =>
    cases h : tryBody y <;>
      simp [validate_workflow_exc, validate_workflow, h]

/-- C6: for every input whose YAML parse raises a syntax error, the result
is `valid = false` with exactly the single warning `Invalid YAML: <error>`
(in particular, a warning extending the text `Invalid YAML`) and empty
suggestions; no further checks contribute anything. -/
theorem C6_invalid_yaml (msg : String) :
    validate_workflow (.yamlError msg) =
      { valid := false, warnings := ["Invalid YAML: " ++ msg], suggestions := [] } ∧
    (∃ rest, "Invalid YAML: " ++ msg = "Invalid YAML" ++ rest) :=
  ⟨rfl, ⟨": " ++ msg, rfl⟩⟩

/-- Document for C9: trigger key present, `jobs` contains a job whose value
is `null`; the missing-name warning and the per-job `Empty job:` warning are
accumulated before the checkout scan raises. -/
def c9doc1 : Yaml :=
  .map [(.bool true, .int 1), (.str "jobs", .map [(.str "build", Yaml.null)])]

/-- Document for C9 with a truthy non-mapping (string) job value. -/
def c9doc2 : Yaml :=
  .map [(.str "name", .str "w"), (.bool true, .int 1),
    (.str "jobs", .map [(.str "deploy", Yaml.str "hello")])]

/-- C9: on a jobs mapping holding a `null` job value or a truthy
non-mapping (string) job value, the checkout scan's attribute access
(`job.get`) raises, and the function returns `valid = false` with the
single `Validation error:`-prefixed warning and empty suggestions,
discarding the previously accumulated warnings (the missing-name warning
for `c9doc1`, and its `Empty job: build` warning). -/
theorem C9_scan_crash :
    validate_workflow (.ok c9doc1) =
      { valid := false, warnings := ["Validation error: AttributeError"],
        suggestions := [] } ∧
    validate_workflow (.ok c9doc2) =
      { valid := false, warnings := ["Validation error: AttributeError"],
        suggestions := [] } ∧
    strStartsWith "Validation error: AttributeError" "Validation error:" = true ∧
    "Missing workflow name" ∉ (validate_workflow (.ok c9doc1)).warnings ∧
    "Empty job: build" ∉ (validate_workflow (.ok c9doc1)).warnings :=
  ⟨rfl, rfl, rfl, by decide, by decide⟩

/-- C10: document emptiness is truthiness, not nullness: every falsy parse
result (Python `False`, `0`, `{}`, `[]`, `""`, `None`) yields the
`Empty workflow file` report, identical to the report for a null (blank)
document. -/
theorem C10_falsy_empty (y : Yaml) (h : pyTruthy y = false) :
    validate_workflow (.ok y) =
      { valid := false, warnings := ["Empty workflow file"], suggestions := [] } ∧
    validate_workflow (.ok y) = validate_workflow (.ok Yaml.null) := by
  have hb : tryBody y =
      Except.ok { valid := false, warnings := ["Empty workflow file"],
                  suggestions := [] } := by
    unfold tryBody
    simp [h]
  exact ⟨by simp [validate_workflow, hb], by simp [validate_workflow, hb]; rfl⟩

/-- Witness for C10 at the concrete falsy non-null inputs named by the
claim: the boolean `false`, the integer `0`, the empty mapping and the
empty sequence. -/
theorem C10_witness :
    validate_workflow (.ok (Yaml.bool false)) =
      { valid := false, warnings := ["Empty workflow file"], suggestions := [] } ∧
    validate_workflow (.ok (Yaml.int 0)) =
      { valid := false, warnings := ["Empty workflow file"], suggestions := [] } ∧
    validate_workflow (.ok (Yaml.map [])) =
      { valid := false, warnings := ["Empty workflow file"], suggestions := [] } ∧
    validate_workflow (.ok (Yaml.seq [])) = validate_workflow (.ok Yaml.null) :=
  ⟨(C10_falsy_empty (Yaml.bool false) rfl).1, (C10_falsy_empty (Yaml.int 0) rfl).1,
   (C10_falsy_empty (Yaml.map []) rfl).1, (C10_falsy_empty (Yaml.seq []) rfl).2⟩

/-- C7: a non-empty mapping document without a `name` key, without a
trigger key (neither the string `on` nor the boolean `true`), and without a
`jobs` key is reported invalid with exactly the three warnings
`Missing workflow name`, `Missing trigger events (on:)` and
`Missing jobs section`, in that order, with empty suggestions: the function
returns at the jobs check and no per-job check contributes. -/
theorem C7_missing_all (kvs : List (Yaml × Yaml))
    (h0 : kvs.isEmpty = false)
    (hn : pyContains (Yaml.map kvs) "name" = Except.ok false)
    (ho : keysHasOn (kvs.map Prod.fst) = false)
    (hj : pyContains (Yaml.map kvs) "jobs" = Except.ok false) :
    validate_workflow (.ok (Yaml.map kvs)) =
      { valid := false,
        warnings := ["Missing workflow name", "Missing trigger events (on:)",
                     "Missing jobs section"],
        suggestions := [] } := by
  unfold validate_workflow tryBody
  simp [pyTruthy, h0, hn, ho, hj, pyIter]

/-- Witness for C7: a one-entry mapping with an unrelated key. -/
theorem C7_witness :
    validate_workflow (.ok (Yaml.map [(Yaml.str "foo", Yaml.int 1)])) =
      { valid := false,
        warnings := ["Missing workflow name", "Missing trigger events (on:)",
                     "Missing jobs section"],
        suggestions := [] } :=
  C7_missing_all [(Yaml.str "foo", Yaml.int 1)] rfl rfl rfl rfl

/-- Document refuting C3: its single job is non-empty but has neither a
`runs-on` key nor a `steps` key. -/
def c3doc : Yaml :=
  .map [(.str "name", .str "CI"), (.bool true, .int 1),
    (.str "jobs", .map [(.str "build", .map [(.str "x", .int 1)])])]

/-- Counterexample to C3: for a non-empty job lacking `runs-on`, the
`Missing steps in job:` warning IS also appended when `steps` is absent —
the two checks are independent `if` statements, not an else-if chain as the
claim states. -/
theorem C3_counterexample :
    (validate_workflow (.ok c3doc)).warnings =
      ["Missing runs-on in job: build", "Missing steps in job: build"] ∧
    "Missing steps in job: build" ∈ (validate_workflow (.ok c3doc)).warnings :=
  ⟨rfl, by decide⟩

/-- Amended C3: a non-empty job definition lacking both `runs-on` and
`steps` receives both warnings, in that order (the two per-job key checks
are independent); on a full document with such a job the report carries
exactly those two warnings and stays valid. -/
theorem C3_independent_checks :
    (∀ (jid job : Yaml) (rest : List (Yaml × Yaml)),
      pyTruthy job = true →
      pyContains job "runs-on" = Except.ok false →
      pyContains job "steps" = Except.ok false →
      jobWarnings ((jid, job) :: rest) =
        (jobWarnings rest).map
          (fun ws => ("Missing runs-on in job: " ++ pyStr jid) ::
                     ("Missing steps in job: " ++ pyStr jid) :: ws)) ∧
    (∀ jid : String,
      validate_workflow (.ok (.map [(.str "name", .str "CI"), (.bool true, .int 1),
          (.str "jobs", .map [(.str jid, .map [(.str "x", .int 1)])])])) =
        { valid := true,
          warnings := ["Missing runs-on in job: " ++ jid,
                       "Missing steps in job: " ++ jid],
          suggestions := [checkoutSuggestion] }) := by
  constructor
  · intro jid job rest ht hr hs
    cases hw : jobWarnings rest <;>
      simp [jobWarnings, ht, hr, hs, hw, Except.map]
  · intro jid
    unfold validate_workflow tryBody
    simp [pyTruthy, pyContains, pyIter, pyGet, pySubscript, pyItems, keysHasOn,
      isTrueKey, pyEqStr, jobWarnings, scanJobs, scanJob, scanSteps,
      stepHasCheckout, pyStr, List.find?]

/-- Witness for the amended C3 at a concrete job. -/
theorem C3_witness :
    jobWarnings [(Yaml.str "b", Yaml.map [(Yaml.str "x", Yaml.int 1)])] =
      Except.ok ["Missing runs-on in job: b", "Missing steps in job: b"] :=
  (C3_independent_checks.1 (Yaml.str "b") (Yaml.map [(Yaml.str "x", Yaml.int 1)])
    [] rfl rfl rfl).trans rfl

/-- Document refuting C4: the jobs mapping holds a job whose definition is
`null`, one of the two cases the claim covers. -/
def c4doc : Yaml :=
  .map [(.str "name", .str "w"), (.bool true, .int 1),
    (.str "jobs", .map [(.str "release", Yaml.null)])]

/-- Counterexample to C4: for a `null` job definition, the best-practice
scan does NOT treat the job as having no steps and the validation does NOT
complete — `job.get` raises on `None`, the accumulated `Empty job: release`
warning is discarded, and the report is the generic validation-error report
with `valid = false`. -/
theorem C4_counterexample :
    validate_workflow (.ok c4doc) =
      { valid := false, warnings := ["Validation error: AttributeError"],
        suggestions := [] } ∧
    "Empty job: release" ∉ (validate_workflow (.ok c4doc)).warnings ∧
    (validate_workflow (.ok c4doc)).valid = false :=
  ⟨rfl, by decide, rfl⟩

/-- Amended C4: the stated behavior holds when the job definition is the
empty MAPPING (the only empty/null value owning a `.get` attribute): the
per-job loop appends `Empty job: <id>` and skips the two key checks, the
checkout scan treats the job as having no steps and moves on, and on a full
document whose only job is the empty mapping the report keeps
`valid = true` with just that warning plus the checkout suggestion.  A
`null` job definition instead makes the scan raise, which the generic
handler turns into a validation-error report. -/
theorem C4_empty_mapping_job :
    (∀ (jid : Yaml) (rest : List (Yaml × Yaml)),
      jobWarnings ((jid, Yaml.map []) :: rest) =
        (jobWarnings rest).map (fun ws => ("Empty job: " ++ pyStr jid) :: ws)) ∧
    (∀ (jid : Yaml) (rest : List (Yaml × Yaml)),
      scanJobs ((jid, Yaml.map []) :: rest) = scanJobs rest) ∧
    (∀ jid : String,
      validate_workflow (.ok (.map [(.str "name", .str "w"), (.bool true, .int 1),
          (.str "jobs", .map [(.str jid, Yaml.map [])])])) =
        { valid := true, warnings := ["Empty job: " ++ jid],
          suggestions := [checkoutSuggestion] }) := by
  refine ⟨?_, ?_, ?_⟩
  · intro jid rest
    cases hw : jobWarnings rest <;>
      simp [jobWarnings, pyTruthy, hw, Except.map]
  · intro jid rest
    rfl
  · intro jid
    unfold validate_workflow tryBody
    simp [pyTruthy, pyContains, pyIter, pyGet, pySubscript, pyItems, keysHasOn,
      isTrueKey, pyEqStr, jobWarnings, scanJobs, scanJob, scanSteps,
      stepHasCheckout, pyStr, List.find?]

/-- Commutation of `List.any` with the key projection used by the
trigger-key scan. -/
theorem any_map_fst (l : List (Yaml × Yaml)) (p : Yaml → Bool) :
    (l.map Prod.fst).any p = l.any (fun kv => p kv.1) := by
  induction l with
  | nil => rfl
  | cons hd tl ih => simp [ih]

/-- C5: for a mapping document, the trigger section counts as present
exactly when some top-level key is the boolean `true` or the string `on`
(first conjunct); a top-level boolean-`true` key is treated identically to
a literal `on` key by the whole validator (second conjunct); and when
neither key exists the final report is invalid and, whenever the body
returns normally, carries the `Missing trigger events (on:)` warning
(third conjunct). -/
theorem C5_trigger_detection (kvs : List (Yaml × Yaml)) (v : Yaml) :
    hasOnDoc (Yaml.map kvs) =
        kvs.any (fun kv => isTrueKey kv.1 || pyEqStr kv.1 "on") ∧
    validate_workflow (.ok (Yaml.map ((Yaml.bool true, v) :: kvs))) =
        validate_workflow (.ok (Yaml.map ((Yaml.str "on", v) :: kvs))) ∧
    (kvs.isEmpty = false →
      kvs.any (fun kv => isTrueKey kv.1 || pyEqStr kv.1 "on") = false →
      (validate_workflow (.ok (Yaml.map kvs))).valid = false ∧
      ∀ r, tryBody (Yaml.map kvs) = Except.ok r →
        "Missing trigger events (on:)" ∈ r.warnings) := by
  refine ⟨?_, ?_, ?_⟩
  · simp [hasOnDoc, pyIter, keysHasOn, any_map_fst]
  · unfold validate_workflow tryBody
    simp [pyTruthy, pyContains, pyIter, pyGet, pySubscript, pyItems, keysHasOn,
      isTrueKey, pyEqStr, List.find?]
  · intro h0 hany
    have hKH : keysHasOn (kvs.map Prod.fst) = false := by
      simpa [keysHasOn, any_map_fst] using hany
    have hOnDoc : hasOnDoc (Yaml.map kvs) = false := by
      simp [hasOnDoc, pyIter, hKH]
    have hT : pyTruthy (Yaml.map kvs) = true := by simp [pyTruthy, h0]
    refine ⟨?_, ?_⟩
    · cases ht : tryBody (Yaml.map kvs) with
      | error e => simp [validate_workflow, ht]
      | ok r =>
        have hv := tryBody_ok_valid _ _ ht
        simp [validate_workflow, ht, hv, hOnDoc]
    · intro r hr
      unfold tryBody at hr
      rw [if_neg (by simp [hT])] at hr
      simp only [pyContains, pyIter, hKH] at hr
      repeat' split at hr
      all_goals try simp_all
      all_goals (subst hr; simp)

/-- Witness for C5 at a concrete one-entry mapping with no trigger key. -/
theorem C5_witness :
    (validate_workflow (.ok (Yaml.map [(Yaml.str "x", Yaml.int 1)]))).valid = false :=
  ((C5_trigger_detection [(Yaml.str "x", Yaml.int 1)] Yaml.null).2.2 rfl rfl).1

/-- Document refuting C2: parse succeeded, the document is truthy, the
trigger key and the `jobs` key are both present, yet the job value `true`
makes the per-job membership test raise, so `valid` comes back false for a
reason outside the four listed in the claim. -/
def c2doc : Yaml :=
  .map [(.str "name", .str "x"), (.bool true, .int 1),
    (.str "jobs", .map [(.str "test", Yaml.bool true)])]

/-- Counterexample to C2: `valid` is false on `c2doc` although the parse
succeeded (the input is an `ok` document), the document is non-empty, a
trigger key is present and a `jobs` key is present — none of the four
conditions the claim says are equivalent to invalidity holds. -/
theorem C2_counterexample :
    (validate_workflow (.ok c2doc)).valid = false ∧
    pyTruthy c2doc = true ∧
    hasOnDoc c2doc = true ∧
    hasJobsDoc c2doc = true ∧
    (validate_workflow (.ok c2doc)).warnings = ["Validation error: TypeError"] :=
  ⟨rfl, rfl, rfl, rfl, rfl⟩

/-- Amended C2: `valid` is false exactly when the YAML failed to parse, the
parsed document is falsy, the trigger key is absent, the `jobs` key is
absent, OR an exception was raised during traversal and converted by the
generic handler into a validation-error report. -/
theorem C2_valid_characterization (pr : ParseResult) :
    (validate_workflow pr).valid = false ↔
      (match pr with
       | .yamlError _ => True
       | .ok y => pyTruthy y = false ∨ bodyFails y = true ∨
           hasOnDoc y = false ∨ hasJobsDoc y = false) := by
  cases pr with
  | yamlError m => simp [validate_workflow]
  | ok y =>
    cases h : tryBody y with
    | error e => simp [validate_workflow, h, bodyFails]
    | ok r =>
      have hv := tryBody_ok_valid y r h
      have hbf : bodyFails y = false := by simp [bodyFails, h]
      simp only [validate_workflow, h, hbf, hv]
      cases hpt : pyTruthy y <;> cases hod : hasOnDoc y <;>
        cases hjd : hasJobsDoc y <;> simp [hpt, hod, hjd]

/-- Document refuting C8: the jobs mapping is non-empty and no step with a
checkout `uses` exists anywhere, yet no suggestion is appended because the
scan raises on the `null` job value. -/
def c8doc : Yaml :=
  .map [(.str "name", .str "w"), (.bool true, .int 1),
    (.str "jobs", .map [(.str "lint", Yaml.null)])]

/-- Counterexample to C8: on `c8doc` the jobs mapping is non-empty and no
job scan yields a checkout hit (the single job's scan raises instead), so
the claim requires the suggestion to be appended; the actual suggestions
list is empty because the exception replaces the report. -/
theorem C8_counterexample :
    (validate_workflow (.ok c8doc)).suggestions = [] ∧
    scanJob Yaml.null = Except.error PyErr.attributeError ∧
    scanJobs [(Yaml.str "lint", Yaml.null)] = Except.error PyErr.attributeError ∧
    validate_workflow (.ok c8doc) =
      { valid := false, warnings := ["Validation error: AttributeError"],
        suggestions := [] } :=
  ⟨rfl, rfl, rfl, rfl⟩

/-- Amended C8: whenever the body returns normally on a mapping document
whose `jobs` key holds a non-empty mapping, the checkout scan also returned
normally, the suggestion is present exactly when that scan found no step
whose `uses` value is a string starting with `actions/checkout@`, and the
scan finds one exactly when some job's step scan returns a hit.  (When the
scan raises instead, the generic handler returns the validation-error
report, whose suggestions are empty.) -/
theorem C8_checkout_iff (kvs jkvs : List (Yaml × Yaml)) (r : Report)
    (h : tryBody (Yaml.map kvs) = Except.ok r)
    (hj : pySubscript (Yaml.map kvs) "jobs" = Except.ok (Yaml.map jkvs))
    (hne : jkvs.isEmpty = false) :
    ∃ hc, scanJobs jkvs = Except.ok hc ∧
      r.suggestions = (if hc then [] else [checkoutSuggestion]) ∧
      (hc = true ↔ ∃ p, p ∈ jkvs ∧ scanJob p.2 = Except.ok true) := by
  obtain ⟨kv, hfv, hkv2⟩ : ∃ kv,
      kvs.find? (fun p => pyEqStr p.1 "jobs") = some kv ∧
      kv.2 = Yaml.map jkvs := by
    simp only [pySubscript] at hj
    cases hfv : kvs.find? (fun p => pyEqStr p.1 "jobs") with
    | none => rw [hfv] at hj; simp at hj
    | some kv => rw [hfv] at hj; simp at hj; exact ⟨kv, rfl, hj⟩
  have hpkv : pyEqStr kv.1 "jobs" = true := by
    have hp := List.find?_some hfv
    simpa using hp
  have hAny : kvs.any (fun p => pyEqStr p.1 "jobs") = true := by
    apply List.any_eq_true.mpr
    exact ⟨kv, List.mem_of_find?_eq_some hfv, by simpa using hpkv⟩
  have hne0 : kvs.isEmpty = false := by
    cases kvs with
    | nil => simp at hfv
    | cons a t => rfl
  have hT : pyTruthy (Yaml.map kvs) = true := by simp [pyTruthy, hne0]
  have hget : ∀ d, pyGet (Yaml.map kvs) "jobs" d = Except.ok (Yaml.map jkvs) := by
    intro d
    simp only [pyGet]
    rw [hfv]
    simp [hkv2]
  have hTJ : pyTruthy (Yaml.map jkvs) = true := by simp [pyTruthy, hne]
  unfold tryBody at h
  rw [if_neg (by simp [hT])] at h
  simp only [pyContains, pyIter, hAny] at h
  rw [hget (Yaml.map [])] at h
  simp only [pyItems] at h
  cases hw : jobWarnings jkvs with
  | error e => rw [hw] at h; simp at h
  | ok w3 =>
    rw [hw] at h
    rw [hget Yaml.null] at h
    simp only [hTJ] at h
    rw [hj] at h
    simp only [pyItems] at h
    cases hs : scanJobs jkvs with
    | error e => rw [hs] at h; simp at h
    | ok hc =>
      rw [hs] at h
      simp only [Bool.true_eq_false, if_false, if_true, Except.ok.injEq] at h
      refine ⟨hc, rfl, ?_, scanJobs_ok_iff _ _ hs⟩
      rw [← h]

/-- Jobs mapping for the C8 witness: one job whose first step uses the
checkout action. -/
def c8wjobs : List (Yaml × Yaml) :=
  [(Yaml.str "b", Yaml.map [(Yaml.str "runs-on", Yaml.str "u"),
    (Yaml.str "steps", Yaml.seq
      [Yaml.map [(Yaml.str "uses", Yaml.str "actions/checkout@v3")]])])]

/-- Top-level mapping for the C8 witness (no `name` key, bare trigger key,
the jobs mapping above). -/
def c8wkvs : List (Yaml × Yaml) :=
  [(Yaml.bool true, Yaml.int 1), (Yaml.str "jobs", Yaml.map c8wjobs)]

/-- Witness for the amended C8 at a concrete document containing a checkout
step: the scan returns a hit and the suggestion is absent. -/
theorem C8_witness :
    ∃ hc, scanJobs c8wjobs = Except.ok hc ∧
      (Report.mk true ["Missing workflow name"] []).suggestions =
        (if hc then [] else [checkoutSuggestion]) ∧
      (hc = true ↔ ∃ p, p ∈ c8wjobs ∧ scanJob p.2 = Except.ok true) :=
  C8_checkout_iff c8wkvs c8wjobs (Report.mk true ["Missing workflow name"] []) rfl rfl rfl
